import Mathlib

/-!
Shallow embedding of the money.txt ledger program (src/money.py) and
verification of the frozen claims about it.

The embedding models, directly from the source:
  - the two regular expressions cmd_re and entry_re of Entry.__init__,
    as backtracking matchers with the exact preference order of the
    Python re engine (leftmost match, greedy and lazy repetitions,
    greedy optional group);
  - the restricted arithmetic evaluation of amount fields (the source
    calls eval on a string drawn from the character class
    "()0123456789+,-.*"), as a recursive-descent evaluator over Q;
  - Entry construction (Entry.__init__), Entry.__eq__, Entry.__str__;
  - Bookkeeper.account (including the bisect.insort_right insertion and
    the date comparisons that raise TypeError on None),
    Bookkeeper.filter and Bookkeeper.get_total_value.

Python exceptions are modelled with Except String; a line for which
Entry.__init__ catches AttributeError and returns (leaving the entry
blank) is modelled by the outcome ParseOutcome.blank, since the
source discriminates stored entries by the comparison e != Entry(),
which is exactly the blank test (a parsed transaction always carries a
tuple of categories, never equal to the default list).

Known deliberate modelling bounds, none of which is exercised by any
claim below: the \w and \s classes and str.strip are modelled over
ASCII; the evaluator rejects the power operator and numerals with
leading zeros, and treats a comma inside a command amount (a Python
tuple value) as an evaluation failure; float arithmetic is modelled by
exact rationals, and the rounding of str.format is modelled as round
half to even.
-/

set_option allowUnsafeReducibility true in
attribute [semireducible] Rat.add Rat.sub Rat.mul Rat.inv

/-!
The four rational operations above are shipped irreducible to keep
simp from unfolding them; re-marking them semireducible changes
nothing for the kernel and lets concrete ledger computations close by
rfl and decide.
-/

namespace Money

/-! ## Character classes (re module classes used by the two patterns) -/

/-- Python whitespace class backslash-s, over ASCII. -/
def isSpacePy (c : Char) : Bool :=
  c = ' ' || c = '\t' || c = '\n' || c = '\r' || c = '\x0b' || c = '\x0c'

/-- Python digit class. -/
def isDigitCh (c : Char) : Bool := '0' ≤ c && c ≤ '9'

/-- Python word class backslash-w, over ASCII. -/
def isWordPy (c : Char) : Bool :=
  isDigitCh c || ('a' ≤ c && c ≤ 'z') || ('A' ≤ c && c ≤ 'Z') || c = '_'

/-- The amount character class of both patterns: parentheses, digits,
and the range from plus to dot (plus, comma, minus, dot) and star. -/
def isValChar (c : Char) : Bool :=
  c = '(' || c = ')' || isDigitCh c || c = '+' || c = ',' || c = '-' || c = '.' || c = '*'

/-! ## Python string helpers -/

/-- Python str.strip with no argument: drop whitespace at both ends. -/
def pyStrip (cs : List Char) : List Char :=
  ((cs.dropWhile isSpacePy).reverse.dropWhile isSpacePy).reverse

/-- Worker for pySplitWs, accumulating the current word reversed. -/
def splitWsAux : List Char → List Char → List (List Char)
  | [], acc => if acc = [] then [] else [acc.reverse]
  | c :: cs, acc =>
    if isSpacePy c then
      (if acc = [] then splitWsAux cs [] else acc.reverse :: splitWsAux cs [])
    else splitWsAux cs (c :: acc)

/-- Python str.split with no argument: split on whitespace runs,
dropping empty pieces. -/
def pySplitWs (cs : List Char) : List (List Char) := splitWsAux cs []

/-- Worker for splitOnChar, accumulating the current piece reversed. -/
def splitOnCharAux (sep : Char) : List Char → List Char → List (List Char)
  | [], acc => [acc.reverse]
  | c :: cs, acc =>
    if c = sep then acc.reverse :: splitOnCharAux sep cs []
    else splitOnCharAux sep cs (c :: acc)

/-- Python str.split with a one-character separator: empty pieces are
kept. -/
def splitOnChar (sep : Char) (cs : List Char) : List (List Char) :=
  splitOnCharAux sep cs []

/-- Numeric value of a digit string. -/
def digitsToNat (l : List Char) : Nat :=
  l.foldl (fun a c => 10 * a + (c.toNat - 48)) 0

/-! ## Dates (datetime.date) -/

/-- A calendar date as constructed by datetime.date. -/
structure Date where
  year : Nat
  month : Nat
  day : Nat
deriving DecidableEq, Repr

/-- Gregorian leap-year rule used by datetime.date. -/
def isLeap (y : Nat) : Bool := y % 4 = 0 && (y % 100 ≠ 0 || y % 400 = 0)

/-- Number of days of a month, as validated by datetime.date. -/
def daysInMonth (y m : Nat) : Nat :=
  if m = 2 then (if isLeap y then 29 else 28)
  else if m = 4 || m = 6 || m = 9 || m = 11 then 30
  else 31

/-- The datetime.date constructor: validates ranges, returning none
where Python raises ValueError. -/
def mkPyDate (y m d : Nat) : Option Date :=
  if 1 ≤ y && 1 ≤ m && m ≤ 12 && 1 ≤ d && d ≤ daysInMonth y m then some ⟨y, m, d⟩
  else none

/-- Date order, lexicographic on year, month, day: the order of
datetime.date values. -/
def dateLeB (a b : Date) : Bool :=
  a.year < b.year ||
  (a.year = b.year && (a.month < b.month ||
    (a.month = b.month && a.day ≤ b.day)))

/-- Comparison of optional dates as Python compares the day fields:
comparing None with anything raises TypeError. Result of a GE b. -/
def dayGeE : Option Date → Option Date → Except String Bool
  | some a, some b => .ok (dateLeB b a)
  | _, _ => .error "TypeError: cannot compare date and None"

/-- Result of a GT b on optional dates, TypeError on None. -/
def dayGtE : Option Date → Option Date → Except String Bool
  | some a, some b => .ok (dateLeB b a && !(a = b : Bool))
  | _, _ => .error "TypeError: cannot compare date and None"

/-- Result of a LE b on optional dates, TypeError on None. -/
def dayLeE : Option Date → Option Date → Except String Bool
  | some a, some b => .ok (dateLeB a b)
  | _, _ => .error "TypeError: cannot compare date and None"

/-! ## Restricted arithmetic evaluation of amount strings

The source applies eval to a string drawn from the amount character
class. Over that class a successful Python evaluation is arithmetic on
numbers with unary sign, addition, subtraction, multiplication and
parentheses; the functions below evaluate exactly that grammar over Q,
returning none where Python raises a syntax error. -/

/-- Parse a decimal numeral: digits, or digits dot digits with at
least one digit in total. -/
def pNumber (cs : List Char) : Option (ℚ × List Char) :=
  let ds := cs.takeWhile isDigitCh
  let r1 := cs.drop ds.length
  match r1 with
  | '.' :: r2 =>
    let fs := r2.takeWhile isDigitCh
    if ds.length = 0 && fs.length = 0 then none
    else some ((digitsToNat ds : ℚ) + (digitsToNat fs : ℚ) / ((10 : ℚ) ^ fs.length),
               r2.drop fs.length)
  | _ => if ds.length = 0 then none else some ((digitsToNat ds : ℚ), r1)

mutual

/-- Expression: term followed by a chain of plus or minus terms. -/
def pEvalE : Nat → List Char → Option (ℚ × List Char)
  | 0, _ => none
  | f + 1, cs =>
    match pEvalT f cs with
    | none => none
    | some (t, r) => pEvalESfx f t r

/-- Chain of additive operations, left associative. -/
def pEvalESfx : Nat → ℚ → List Char → Option (ℚ × List Char)
  | 0, _, _ => none
  | f + 1, acc, cs =>
    match cs with
    | '+' :: r =>
      (match pEvalT f r with
       | none => none
       | some (t, r2) => pEvalESfx f (acc + t) r2)
    | '-' :: r =>
      (match pEvalT f r with
       | none => none
       | some (t, r2) => pEvalESfx f (acc - t) r2)
    | r => some (acc, r)

/-- Term: factor followed by a chain of multiplications. -/
def pEvalT : Nat → List Char → Option (ℚ × List Char)
  | 0, _ => none
  | f + 1, cs =>
    match pEvalF f cs with
    | none => none
    | some (t, r) => pEvalTSfx f t r

/-- Chain of multiplicative operations, left associative. -/
def pEvalTSfx : Nat → ℚ → List Char → Option (ℚ × List Char)
  | 0, _, _ => none
  | f + 1, acc, cs =>
    match cs with
    | '*' :: r =>
      (match pEvalF f r with
       | none => none
       | some (t, r2) => pEvalTSfx f (acc * t) r2)
    | r => some (acc, r)

/-- Factor: unary signs, parenthesised expression, or numeral. -/
def pEvalF : Nat → List Char → Option (ℚ × List Char)
  | 0, _ => none
  | f + 1, cs =>
    match cs with
    | '+' :: r => pEvalF f r
    | '-' :: r =>
      (match pEvalF f r with
       | none => none
       | some (v, r2) => some (-v, r2))
    | '(' :: r =>
      (match pEvalE f r with
       | some (v, ')' :: r2) => some (v, r2)
       | _ => none)
    | _ => pNumber cs

end

/-- The eval call of the source on an amount string: evaluate the
whole string as arithmetic, none on a syntax error or leftover input.
The fuel bound exceeds the depth of any derivation over the input. -/
def pyEval (cs : List Char) : Option ℚ :=
  match pEvalE (4 * cs.length + 8) cs with
  | some (v, []) => some v
  | _ => none

/-! ## Backtracking matchers for the two patterns

The combinators explore alternatives in exactly the preference order
of the Python re engine and pass the remaining input (and the captured
group, for the capturing versions) to a continuation; the first
alternative whose continuation succeeds wins. -/

/-- Greedy star over a one-character class, no capture: longest
consumption is tried first. -/
def starNC {β : Type} (p : Char → Bool) : List Char → (List Char → Option β) → Option β
  | [], k => k []
  | c :: cs, k =>
    if p c then (starNC p cs k <|> k (c :: cs)) else k (c :: cs)

/-- Greedy plus over a one-character class, no capture. -/
def plusNC {β : Type} (p : Char → Bool) : List Char → (List Char → Option β) → Option β
  | [], _ => none
  | c :: cs, k => if p c then starNC p cs k else none

/-- Greedy star over a one-character class, capturing the consumed
prefix. -/
def starGreedyCap {β : Type} (p : Char → Bool) :
    List Char → (List Char → List Char → Option β) → Option β
  | [], k => k [] []
  | c :: cs, k =>
    if p c then
      (starGreedyCap p cs (fun cap rest => k (c :: cap) rest) <|> k [] (c :: cs))
    else k [] (c :: cs)

/-- Lazy star over a one-character class, capturing the consumed
prefix: shortest consumption is tried first. -/
def starLazyCap {β : Type} (p : Char → Bool) :
    List Char → (List Char → List Char → Option β) → Option β
  | [], k => k [] []
  | c :: cs, k =>
    (k [] (c :: cs)) <|>
      (if p c then starLazyCap p cs (fun cap rest => k (c :: cap) rest) else none)

/-- Greedy plus over a one-character class, capturing the consumed
prefix. -/
def plusGreedyCap {β : Type} (p : Char → Bool) :
    List Char → (List Char → List Char → Option β) → Option β
  | [], _ => none
  | c :: cs, k =>
    if p c then starGreedyCap p cs (fun cap rest => k (c :: cap) rest) else none

/-- The fixed shape of the date group: four digits, dot, two digits,
dot, two digits. -/
def dateShape {β : Type} : List Char → (List Char → List Char → Option β) → Option β
  | a :: b :: c :: d :: p :: e :: f :: q :: g :: h :: rest, k =>
    if isDigitCh a && isDigitCh b && isDigitCh c && isDigitCh d && p = '.' &&
       isDigitCh e && isDigitCh f && q = '.' && isDigitCh g && isDigitCh h then
      k [a, b, c, d, p, e, f, q, g, h] rest
    else none
  | _, _ => none

/-- The optional date group: greedy, so the present alternative is
tried first. -/
def optDate {β : Type} (s : List Char) (k : Option (List Char) → List Char → Option β) :
    Option β :=
  (dateShape s (fun cap rest => k (some cap) rest)) <|> k none s

/-- Matcher for cmd_re applied with re.match: whitespace star, optional
date group, whitespace plus, a bang, lazy any-star (command name),
space plus, amount-class plus. The trailing whitespace star of the
pattern always matches and is dropped. Returns the three groups. -/
def cmdReMatch (s : List Char) :
    Option (Option (List Char) × List Char × List Char) :=
  starNC isSpacePy s (fun r1 =>
  optDate r1 (fun dcap r2 =>
  plusNC isSpacePy r2 (fun r3 =>
  match r3 with
  | '!' :: r4 =>
    starLazyCap (fun _ => true) r4 (fun cmdCap r5 =>
    plusNC (fun c => c = ' ') r5 (fun r6 =>
    plusGreedyCap isValChar r6 (fun valCap _ => some (dcap, cmdCap, valCap))))
  | _ => none)))

/-- Matcher for entry_re applied with re.match: space star, optional
date group, space star, lazy any-star (description), space plus,
amount-class plus, word star, then a greedy any-star which captures the
entire remainder (the note). Returns the four groups. -/
def entryReMatch (s : List Char) :
    Option (Option (List Char) × List Char × List Char × List Char) :=
  starNC (fun c => c = ' ') s (fun r1 =>
  optDate r1 (fun dcap r2 =>
  starNC (fun c => c = ' ') r2 (fun r3 =>
  starLazyCap (fun _ => true) r3 (fun descCap r4 =>
  plusNC (fun c => c = ' ') r4 (fun r5 =>
  plusGreedyCap isValChar r5 (fun valCap r6 =>
  starNC isWordPy r6 (fun r7 => some (dcap, descCap, valCap, r7))))))))

/-! ## Entries (class Entry) -/

/-- One ledger record, the fields of class Entry. -/
structure Entry where
  cats : List String
  tags : List String
  day : Option Date
  value : ℚ
  note : String
  cmd : Option String
deriving DecidableEq, Repr

/-- The all-default entry Entry() used by the source as the blank
sentinel. -/
def entryDefault : Entry := ⟨[], [], none, 0, "", none⟩

/-- Entry.__eq__: compares cats, day, tags, value and note, and not
cmd. -/
def eqEntry (a b : Entry) : Bool :=
  (a.cats = b.cats : Bool) && (a.day = b.day : Bool) && (a.tags = b.tags : Bool) &&
  (a.value = b.value : Bool) && (a.note = b.note : Bool)

/-- Outcome of constructing Entry(s, date): a blank entry (equal to
Entry(), skipped by account), a proper entry, or an uncaught Python
exception. -/
inductive ParseOutcome where
  | blank : ParseOutcome
  | entry : Entry → ParseOutcome
  | error : String → ParseOutcome
deriving DecidableEq, Repr

/-- Date construction from the captured group: the source splits the
group on dots and passes the three integers to datetime.date. -/
def pyDateOfCap (l : List Char) : Option Date :=
  match l with
  | [a, b, c, d, _, e, f, _, g, h] =>
    mkPyDate (digitsToNat [a, b, c, d]) (digitsToNat [e, f]) (digitsToNat [g, h])
  | _ => none

/-- The command branch of Entry.__init__: a missing date group raises
AttributeError on None split, an out-of-range date raises ValueError,
and the amount string is evaluated without comma normalisation. -/
def parseCmdGroups (dateStr : Option (List Char)) (cmdCap valStr : List Char) :
    ParseOutcome :=
  match dateStr with
  | none => .error "AttributeError: NoneType object has no attribute split"
  | some dcap =>
    match pyDateOfCap dcap with
    | none => .error "ValueError: invalid date"
    | some d =>
      match pyEval valStr with
      | none => .error "SyntaxError: invalid amount expression"
      | some v => .entry ⟨[], [], some d, v, "", some (String.mk cmdCap)⟩

/-- The transaction branch of Entry.__init__: commas of the amount are
normalised to dots, the note is split into words, the day falls back
to the inherited date, the description is split on commas into
stripped nonempty categories, the amount is negated unless its first
character is a plus, words starting with a hash become tags and the
remaining words are rejoined as the note. -/
def parseEntryGroups (date : Option Date) (dateGr : Option (List Char))
    (descGr valueGr noteGr : List Char) : ParseOutcome :=
  let valueGr := valueGr.map (fun ch => if ch = ',' then '.' else ch)
  let noteWords := pySplitWs noteGr
  let dayRes : Except String (Option Date) :=
    match dateGr with
    | none => .ok date
    | some dcap =>
      match pyDateOfCap dcap with
      | none => .error "ValueError: invalid date"
      | some d => .ok (some d)
  match dayRes with
  | .error m => .error m
  | .ok day =>
    let cats :=
      ((splitOnChar ',' descGr).map (fun seg => String.mk (pyStrip seg))).filter
        (fun t => t != "")
    match pyEval valueGr with
    | none => .error "SyntaxError: invalid amount expression"
    | some m =>
      let v := if valueGr.head? = some '+' then m else -m
      let note :=
        String.intercalate " "
          ((noteWords.filter (fun w => !(w.head? == some '#'))).map String.mk)
      let tags :=
        (noteWords.filter (fun w => w.head? == some '#')).map
          (fun w => String.mk (w.drop 1))
      .entry ⟨cats, tags, day, v, note, none⟩

/-- Entry.__init__ on a line and an inherited date: blank and comment
lines yield the blank entry, then cmd_re is tried, then entry_re; a
failed entry_re match is the caught AttributeError of the source,
which prints a message and leaves the entry blank. -/
def parseLine (s : String) (date : Option Date) : ParseOutcome :=
  let st := pyStrip s.data
  if st = [] then .blank
  else if st.head? = some '#' then .blank
  else
    match cmdReMatch s.data with
    | some (dateStr, cmdCap, valStr) => parseCmdGroups dateStr cmdCap valStr
    | none =>
      match entryReMatch s.data with
      | none => .blank
      | some (dateGr, descGr, valueGr, noteGr) =>
        parseEntryGroups date dateGr descGr valueGr noteGr

/-! ## Entry formatting (Entry.__str__) -/

/-- Round half to even, the rounding of Python string formatting. -/
def roundHalfEven (q : ℚ) : ℤ :=
  let f : ℤ := q.floor
  let r := q - f
  if r < 1/2 then f
  else if 1/2 < r then f + 1
  else if f % 2 = 0 then f else f + 1

/-- Fixed one-decimal formatting of a nonnegative rational. -/
def fmtFixed1Abs (q : ℚ) : String :=
  let n := (roundHalfEven (q * 10)).toNat
  toString (n / 10) ++ "." ++ toString (n % 10)

/-- Python format with one decimal place. -/
def fmtFixed1 (q : ℚ) : String :=
  if q < 0 then "-" ++ fmtFixed1Abs (-q) else fmtFixed1Abs q

/-- Python format with no decimal places. -/
def fmtFixed0 (q : ℚ) : String :=
  if q < 0 then "-" ++ toString (roundHalfEven (-q)).toNat
  else toString (roundHalfEven q).toNat

/-- Two-digit zero padding. -/
def pad2 (n : Nat) : String := if n < 10 then "0" ++ toString n else toString n

/-- Four-digit zero padding. -/
def pad4 (n : Nat) : String :=
  if n < 10 then "000" ++ toString n
  else if n < 100 then "00" ++ toString n
  else if n < 1000 then "0" ++ toString n
  else toString n

/-- Python str of an optional date: None prints as the word None,
a date prints as year-month-day with dashes. -/
def strOfDay : Option Date → String
  | none => "None"
  | some d => pad4 d.year ++ "-" ++ pad2 d.month ++ "-" ++ pad2 d.day

/-- Entry.__str__: a transaction prints day, comma-joined categories,
the amount (one decimal for expenses, plus sign and no decimals for
income), the note and the hash-prefixed tags, space separated; a
command prints day, bang, command name and the amount with one
decimal. -/
def entryStr (e : Entry) : String :=
  match e.cmd with
  | none =>
    let valueStr := if e.value < 0 then fmtFixed1 (-e.value) else "+" ++ fmtFixed0 e.value
    strOfDay e.day ++ " " ++ String.intercalate "," e.cats ++ " " ++ valueStr ++ " " ++
      e.note ++ " " ++ String.intercalate " " (e.tags.map (fun t => "#" ++ t))
  | some c => strOfDay e.day ++ " !" ++ c ++ " " ++ fmtFixed1 e.value

/-! ## The Bookkeeper (class Bookkeeper) -/

/-- The Bookkeeper state: stored entries, the remembered last date,
and the two configuration parameters. -/
structure Bookkeeper where
  entries : List Entry
  last_day : Option Date
  month_start_day : Nat
  weekly_categories : List (List String)
deriving DecidableEq, Repr

/-- Entry.__lt__ as produced by functools.total_ordering from __gt__
and __eq__: not greater and not equal; the day comparison raises
TypeError on None. -/
def entryLt (a b : Entry) : Except String Bool := do
  let g ← dayGtE a.day b.day
  pure (!(g || eqEntry a b))

/-- The bisect_right search loop on lo and hi; the fuel exceeds the
number of halvings and is never exhausted. -/
def bisectRightAux (a : List Entry) (x : Entry) : Nat → Nat → Nat → Except String Nat
  | 0, lo, _ => .ok lo
  | fuel + 1, lo, hi =>
    if lo < hi then do
      let mid := (lo + hi) / 2
      let lt ← entryLt x (a.getD mid entryDefault)
      if lt then bisectRightAux a x fuel lo mid
      else bisectRightAux a x fuel (mid + 1) hi
    else .ok lo

/-- bisect.insort_right on the entry list. -/
def insortRight (a : List Entry) (x : Entry) : Except String (List Entry) := do
  let i ← bisectRightAux a x (a.length + 1) 0 a.length
  .ok (a.take i ++ x :: a.drop i)

/-- Bookkeeper.account: the empty line returns at once; otherwise the
line is parsed with the remembered last date, the remembered date is
set to the day of the constructed entry (None for blank and comment
lines), and a non-blank entry is appended when the ledger is nonempty
and its last day is at least the new day, and otherwise inserted with
insort_right. -/
def account (bk : Bookkeeper) (line : String) : Except String Bookkeeper :=
  if line = "" then .ok bk
  else
    match parseLine line bk.last_day with
    | .error m => .error m
    | .blank => .ok { bk with last_day := none }
    | .entry e =>
      let bk1 := { bk with last_day := e.day }
      match bk1.entries.getLast? with
      | some lastE => do
        let ge ← dayGeE lastE.day e.day
        if ge then .ok { bk1 with entries := bk1.entries ++ [e] }
        else do
          let es ← insortRight bk1.entries e
          .ok { bk1 with entries := es }
      | none => do
        let es ← insortRight bk1.entries e
        .ok { bk1 with entries := es }

/-- The loading loop of load_data over the lines of the text: account
on each line in order, stopping at the first uncaught exception. -/
def accountAll (bk : Bookkeeper) (lines : List String) : Except String Bookkeeper :=
  lines.foldlM account bk

/-- Bookkeeper.get_total_value: fold over the stored entries, a
milestone command resets the accumulator to its value and every other
entry adds its value. -/
def get_total_value (bk : Bookkeeper) : ℚ :=
  bk.entries.foldl
    (fun acc e => if e.cmd == some "milestone" then e.value else acc + e.value) 0

/-- The category test of Bookkeeper.filter: the given path is no
longer than the entry path and agrees with it position by position. -/
def catsMatch (ecats : List String) (c : List String) : Bool :=
  decide (c.length ≤ ecats.length) &&
    (List.range c.length).all (fun i => ecats.getD i "" == c.getD i "")

/-- The period stage of Bookkeeper.filter: keep the entries whose day
lies in the inclusive range, with the chained Python comparison that
evaluates the lower bound first and raises TypeError on a None day. -/
def filterPeriod (pr0 pr1 : Option Date) : List Entry → Except String (List Entry)
  | [] => .ok []
  | e :: es => do
    let a ← dayLeE pr0 e.day
    let keep ← if a then dayLeE e.day pr1 else pure false
    let rest ← filterPeriod pr0 pr1 es
    if keep then .ok (e :: rest) else .ok rest

/-- Bookkeeper.filter with all five parameters, today standing for
datetime.date.today. Stages run in source order: command membership,
sign, period (the missing lower bound is the day of the first stored
entry, raising IndexError on an empty ledger), categories (one copy of
the entry is appended for every matching given path, the loop of the
source continuing rather than breaking), and tags (Entry.tags is a
Python list, which has no intersection method, so consuming the lazy
result raises AttributeError on the first entry reaching this stage). -/
def filterEntries (bk : Bookkeeper) (today : Date)
    (period : Option (Option Date × Option Date)) (cats : Option (List (List String)))
    (tags : Option (List String)) (sign : Option String) (cmds : List (Option String)) :
    Except String (List Entry) :=
  let r0 := bk.entries.filter (fun e => cmds.contains e.cmd)
  let r1 :=
    match sign with
    | some "+" => r0.filter (fun e => decide (0 < e.value))
    | some "-" => r0.filter (fun e => decide (e.value < 0))
    | _ => r0
  let r2res : Except String (List Entry) :=
    match period with
    | none => .ok r1
    | some (p0, p1) =>
      match (match p0 with
             | some d => Except.ok (some d)
             | none =>
               match bk.entries.head? with
               | some e0 => Except.ok e0.day
               | none => Except.error "IndexError: list index out of range") with
      | .error m => .error m
      | .ok pr0 =>
        let pr1 : Option Date := match p1 with | some d => some d | none => some today
        filterPeriod pr0 pr1 r1
  match r2res with
  | .error m => .error m
  | .ok r2 =>
    let r3 :=
      match cats with
      | none => r2
      | some cl =>
        (r2.map (fun e => (cl.filter (fun c => catsMatch e.cats c)).map (fun _ => e))).flatten
    match tags with
    | none => .ok r3
    | some _ =>
      match r3 with
      | [] => .ok []
      | _ => .error "AttributeError: list object has no attribute intersection"

/-- Recognises the error outcome of a parse. -/
def isParseError : ParseOutcome → Bool
  | .error _ => true
  | _ => false

/-- Extracts the stored value of a parsed entry. -/
def valueOfOutcome : ParseOutcome → Option ℚ
  | .entry e => some e.value
  | _ => none

/-- The total-value function the claim describes, for comparison with
get_total_value: only transaction values are added, milestone commands
reset, other command entries contribute nothing. -/
def claimTotalValue (bk : Bookkeeper) : ℚ :=
  bk.entries.foldl
    (fun acc e =>
      if e.cmd == some "milestone" then e.value
      else if e.cmd == none then acc + e.value else acc) 0

/-! ## Claims -/

/-- C1, counterexample: the claim asserts that the example line with
the minus-signed amount parses to value minus twelve point five; in
fact the minus sign is part of the evaluated expression and the result
is negated once more, so the stored value is plus twelve point five. -/
theorem C1_counterexample :
    valueOfOutcome (parseLine "2023.01.05 food, snacks -12.50 lunch #work" none) =
      some (25/2 : ℚ) ∧
    some (25/2 : ℚ) ≠ some (-(25/2) : ℚ) :=
  ⟨rfl, by decide⟩

/-- C1, amended: an unsigned amount stores the negative of its
evaluated magnitude and a plus-signed amount stores the positive
magnitude, as claimed; but a minus-signed amount is evaluated with its
sign and then negated, storing the positive magnitude, so the example
line yields value plus twelve point five with the claimed categories,
note, tags and date. -/
theorem C1_amended :
    parseLine "2023.01.05 food, snacks -12.50 lunch #work" none =
      .entry ⟨["food", "snacks"], ["work"], some ⟨2023, 1, 5⟩, 25/2, "lunch", none⟩ ∧
    parseLine "2023.01.05 food, snacks 12.50 lunch #work" none =
      .entry ⟨["food", "snacks"], ["work"], some ⟨2023, 1, 5⟩, -(25/2), "lunch", none⟩ ∧
    parseLine "2023.01.05 food, snacks +12.50 lunch #work" none =
      .entry ⟨["food", "snacks"], ["work"], some ⟨2023, 1, 5⟩, 25/2, "lunch", none⟩ :=
  ⟨rfl, rfl, rfl⟩

/-- C2: accounting a day-five entry and then a day-three entry leaves
the ledger in the order five then three, not sorted ascending: the
insertion condition of account is inverted, appending precisely when
the new day is not greater than the last stored day. -/
theorem C2_code_bug :
    accountAll ⟨[], none, 1, []⟩ ["2023.01.05 food 10", "2023.01.03 tea 5"] =
      .ok ⟨[⟨["food"], [], some ⟨2023, 1, 5⟩, -10, "", none⟩,
            ⟨["tea"], [], some ⟨2023, 1, 3⟩, -5, "", none⟩],
           some ⟨2023, 1, 3⟩, 1, []⟩ ∧
    dateLeB ⟨2023, 1, 5⟩ ⟨2023, 1, 3⟩ = false :=
  ⟨rfl, by decide⟩

/-- C3, amended: a non-blank, non-comment line matching neither the
command pattern nor the transaction pattern does not raise: the
AttributeError is caught inside the constructor, a message is printed,
and the line yields a blank entry that account skips; no abort
occurs. -/
theorem C3_amended (s : String) (d : Option Date)
    (hc : cmdReMatch s.data = none) (he : entryReMatch s.data = none) :
    parseLine s d = ParseOutcome.blank := by
  simp only [parseLine, hc, he, ite_self]

/-- Witness for C3, amended, at the line that matches neither
pattern. -/
theorem C3_amended_witness :
    cmdReMatch ("+1500 salary").data = none ∧
    entryReMatch ("+1500 salary").data = none ∧
    parseLine "+1500 salary" none = ParseOutcome.blank :=
  ⟨rfl, rfl, C3_amended "+1500 salary" none rfl rfl⟩

/-- C3, counterexample: processing the malformed line does not raise
and the load does not abort; account returns normally, stores nothing,
and the line is skipped (resetting the remembered date). -/
theorem C3_counterexample :
    account ⟨[], some ⟨2023, 1, 5⟩, 1, []⟩ "+1500 salary" = .ok ⟨[], none, 1, []⟩ ∧
    isParseError (parseLine "+1500 salary" (some ⟨2023, 1, 5⟩)) = false :=
  ⟨rfl, rfl⟩

/-- C4, counterexample: on a ledger holding a non-milestone command
entry of value fifty and a transaction of value one hundred,
get_total_value adds the command value and returns one hundred fifty,
while the claimed sum-of-transactions-only chain gives one hundred. -/
theorem C4_counterexample :
    get_total_value ⟨[⟨[], [], some ⟨2023, 1, 5⟩, 50, "", some "budget"⟩,
                      ⟨["salary"], [], some ⟨2023, 1, 5⟩, 100, "", none⟩],
                     none, 1, []⟩ = 150 ∧
    claimTotalValue ⟨[⟨[], [], some ⟨2023, 1, 5⟩, 50, "", some "budget"⟩,
                      ⟨["salary"], [], some ⟨2023, 1, 5⟩, 100, "", none⟩],
                     none, 1, []⟩ = 100 ∧
    (150 : ℚ) ≠ 100 :=
  ⟨rfl, rfl, by decide⟩

/-- C4, amended: get_total_value is the sum-and-reset chain in ledger
order where a milestone command resets the running total to its value
and every other entry, transaction or non-milestone command alike,
adds its value; the example ledger of plus one hundred, minus thirty,
milestone five hundred and plus twenty totals five hundred twenty. -/
theorem C4_amended :
    (∀ (l : List Entry) (e : Entry) (ld : Option Date) (msd : Nat)
       (wc : List (List String)),
      get_total_value ⟨l ++ [e], ld, msd, wc⟩ =
        if e.cmd == some "milestone" then e.value
        else get_total_value ⟨l, ld, msd, wc⟩ + e.value) ∧
    get_total_value ⟨[⟨["a"], [], some ⟨2023, 1, 5⟩, 100, "", none⟩,
                      ⟨["b"], [], some ⟨2023, 1, 6⟩, -30, "", none⟩,
                      ⟨[], [], some ⟨2023, 1, 7⟩, 500, "", some "milestone"⟩,
                      ⟨["c"], [], some ⟨2023, 1, 8⟩, 20, "", none⟩],
                     none, 1, []⟩ = 520 := by
  constructor
  · intro l e ld msd wc
    simp [get_total_value, List.foldl_append]
  · rfl

/-- C5, counterexample: the very first line with no date and no prior
entries does not fail: it is parsed with day None and stored in the
ledger. -/
theorem C5_counterexample :
    account ⟨[], none, 1, []⟩ "food, snacks 12.50 lunch" =
      .ok ⟨[⟨["food", "snacks"], [], none, -(25/2), "lunch", none⟩], none, 1, []⟩ :=
  rfl

/-- C5, amended: a transaction line with an omitted date is parsed
with day equal to the inherited date, whatever it is, so a dateless
line following a dated one inherits that date through the bookkeeper;
when no prior date exists the dateless first line is stored with day
None rather than failing. -/
theorem C5_amended :
    (∀ d : Option Date, parseLine "snacks 3" d =
      .entry ⟨["snacks"], [], d, -3, "", none⟩) ∧
    accountAll ⟨[], none, 1, []⟩ ["2023.01.05 food 10", "snacks 3"] =
      .ok ⟨[⟨["food"], [], some ⟨2023, 1, 5⟩, -10, "", none⟩,
            ⟨["snacks"], [], some ⟨2023, 1, 5⟩, -3, "", none⟩],
           some ⟨2023, 1, 5⟩, 1, []⟩ :=
  ⟨fun _ => rfl, rfl⟩

/-- C6: with the single given path food, the food-and-snacks entry
matches and the drinks entry does not, as claimed; but with the two
overlapping given paths food and food-snacks the matching entry is
returned twice, because the loop of the category stage appends once
per matching path, so the result is not a subsequence with each
matching entry exactly once. -/
theorem C6_code_bug :
    filterEntries ⟨[⟨["food", "snacks"], [], some ⟨2023, 1, 5⟩, -10, "x", none⟩,
                    ⟨["drinks"], [], some ⟨2023, 1, 5⟩, -5, "y", none⟩],
                   some ⟨2023, 1, 5⟩, 1, []⟩ ⟨2023, 1, 5⟩ none
        (some [["food"]]) none none [none] =
      .ok [⟨["food", "snacks"], [], some ⟨2023, 1, 5⟩, -10, "x", none⟩] ∧
    filterEntries ⟨[⟨["food", "snacks"], [], some ⟨2023, 1, 5⟩, -10, "x", none⟩],
                   some ⟨2023, 1, 5⟩, 1, []⟩ ⟨2023, 1, 5⟩ none
        (some [["food"], ["food", "snacks"]]) none none [none] =
      .ok [⟨["food", "snacks"], [], some ⟨2023, 1, 5⟩, -10, "x", none⟩,
           ⟨["food", "snacks"], [], some ⟨2023, 1, 5⟩, -10, "x", none⟩] :=
  ⟨rfl, rfl⟩

/-- C7: the tags of the parsed example line are exactly the
hash-words with the marker stripped, but they are stored as a list;
the tags stage of filter calls the set method intersection on that
list, so filtering by tags raises AttributeError on the first entry
instead of returning the entries sharing a tag. -/
theorem C7_code_bug :
    parseLine "2023.01.05 food, snacks -12.50 lunch #work" none =
      .entry ⟨["food", "snacks"], ["work"], some ⟨2023, 1, 5⟩, 25/2, "lunch", none⟩ ∧
    filterEntries ⟨[⟨["food", "snacks"], ["work"], some ⟨2023, 1, 5⟩, 25/2, "lunch", none⟩],
                   some ⟨2023, 1, 5⟩, 1, []⟩ ⟨2023, 1, 5⟩ none none
        (some ["work"]) none [none] =
      .error "AttributeError: list object has no attribute intersection" :=
  ⟨rfl, rfl⟩

/-- C8: a comment line and an all-whitespace line are skipped without
error and store no entry, as claimed, but they do not leave the state
unchanged: the remembered last date is overwritten with None (only the
strictly empty line leaves the state intact). -/
theorem C8_code_bug :
    account ⟨[⟨["food"], [], some ⟨2023, 1, 5⟩, -10, "", none⟩],
             some ⟨2023, 1, 5⟩, 1, []⟩ "# a comment" =
      .ok ⟨[⟨["food"], [], some ⟨2023, 1, 5⟩, -10, "", none⟩], none, 1, []⟩ ∧
    account ⟨[⟨["food"], [], some ⟨2023, 1, 5⟩, -10, "", none⟩],
             some ⟨2023, 1, 5⟩, 1, []⟩ "   " =
      .ok ⟨[⟨["food"], [], some ⟨2023, 1, 5⟩, -10, "", none⟩], none, 1, []⟩ ∧
    account ⟨[⟨["food"], [], some ⟨2023, 1, 5⟩, -10, "", none⟩],
             some ⟨2023, 1, 5⟩, 1, []⟩ "" =
      .ok ⟨[⟨["food"], [], some ⟨2023, 1, 5⟩, -10, "", none⟩],
           some ⟨2023, 1, 5⟩, 1, []⟩ ∧
    (none : Option Date) ≠ some ⟨2023, 1, 5⟩ :=
  ⟨rfl, rfl, rfl, by decide⟩

/-- C9, counterexample: formatting the example transaction entry
prints its date with dashes; re-parsing that text, even with the
original day as the inherited date, absorbs the dashed date into the
first category, so the re-parsed entry is not equal to the original
under the entry equality of the source. -/
theorem C9_counterexample :
    entryStr ⟨["food", "snacks"], ["work"], some ⟨2023, 1, 5⟩, -(25/2), "lunch", none⟩ =
      "2023-01-05 food,snacks 12.5 lunch #work" ∧
    parseLine "2023-01-05 food,snacks 12.5 lunch #work" (some ⟨2023, 1, 5⟩) =
      .entry ⟨["2023-01-05 food", "snacks"], ["work"], some ⟨2023, 1, 5⟩,
              -(25/2), "lunch", none⟩ ∧
    eqEntry ⟨["2023-01-05 food", "snacks"], ["work"], some ⟨2023, 1, 5⟩,
             -(25/2), "lunch", none⟩
            ⟨["food", "snacks"], ["work"], some ⟨2023, 1, 5⟩, -(25/2), "lunch", none⟩ =
      false :=
  ⟨rfl, rfl, by decide⟩

/-- C9, amended: entries do not round-trip through format and
re-parse: the formatted date uses dashes while the parser only
recognises dotted dates, so on re-parse the date text joins the first
category and the day falls back to the inherited date (None when
absent); a formatted command entry re-parses as a transaction whose
single category is the dashed date followed by the bang and the
command name. Value, note and tags survive for one-decimal expense
values. -/
theorem C9_amended :
    parseLine
        (entryStr ⟨["food", "snacks"], ["work"], some ⟨2023, 1, 5⟩, -(25/2), "lunch", none⟩)
        none =
      .entry ⟨["2023-01-05 food", "snacks"], ["work"], none, -(25/2), "lunch", none⟩ ∧
    parseLine (entryStr ⟨[], [], some ⟨2023, 1, 5⟩, 500, "", some "milestone"⟩) none =
      .entry ⟨["2023-01-05 !milestone"], [], none, -500, "", none⟩ :=
  ⟨rfl, rfl⟩

/-- C10, counterexample: the dateless command-shaped line with no
leading whitespace is not a parse failure: the command pattern
requires whitespace before the bang, so the line falls through to the
transaction pattern and parses to a transaction entry whose first
category is the bang-word. -/
theorem C10_counterexample :
    parseLine "!milestone 500" none =
      .entry ⟨["!milestone"], [], none, -500, "", none⟩ ∧
    isParseError (parseLine "!milestone 500" none) = false :=
  ⟨rfl, rfl⟩

/-- C10, amended: a dateless command line with leading whitespace
fails for every inherited date, never falling back to it; a command
line with an explicit valid date produces a command entry bearing that
date; and a dateless command-shaped line without leading whitespace is
not recognised as a command at all, parsing as a transaction. -/
theorem C10_amended :
    (∀ d : Option Date, parseLine " !milestone 500" d =
      .error "AttributeError: NoneType object has no attribute split") ∧
    parseLine "2023.01.05 !milestone 500" none =
      .entry ⟨[], [], some ⟨2023, 1, 5⟩, 500, "", some "milestone"⟩ ∧
    parseLine "!milestone 500" none =
      .entry ⟨["!milestone"], [], none, -500, "", none⟩ :=
  ⟨fun _ => rfl, rfl, rfl⟩

end Money
